import Mathlib

/-!
Shallow embedding of `src/dags/dbt_dag.py`.

The file under verification is a declarative Airflow DAG definition: it sets
two path constants, declares a `@dag`-decorated function `dbt_pipeline` whose
body constructs a single `DbtTaskGroup` from four configuration objects, and
calls `dbt_pipeline()` at module level.  The configuration records below are
translated field-for-field from the constructor calls in the source; the enum
types list the member referenced by the source (`ExecutionMode.LOCAL`,
`LoadMode.DBT_LS`) together with the other members of the third-party
library's published enums, so that "equals LOCAL" and "equals DBT_LS" are
non-trivial statements.
-/

/-- Embeds the `ProjectConfig(dbt_project_path=...)` call at
`src/dags/dbt_dag.py` lines 19-21. -/
structure ProjectConfig where
  dbt_project_path : String
  deriving DecidableEq, Repr

/-- Embeds the `ProfileConfig(...)` call at `src/dags/dbt_dag.py`
lines 22-26. -/
structure ProfileConfig where
  profiles_yml_filepath : String
  profile_name : String
  target_name : String
  deriving DecidableEq, Repr

/-- Execution-mode enum of the task-grouping plugin; the source references
only `ExecutionMode.LOCAL` (line 28). -/
inductive ExecutionMode where
  | LOCAL
  | VIRTUALENV
  | DOCKER
  | KUBERNETES
  deriving DecidableEq, Repr

/-- Load-method enum of the task-grouping plugin; the source references only
`LoadMode.DBT_LS` (line 31). -/
inductive LoadMode where
  | AUTOMATIC
  | CUSTOM
  | DBT_LS
  | DBT_LS_FILE
  | DBT_MANIFEST
  deriving DecidableEq, Repr

/-- Embeds the `ExecutionConfig(execution_mode=...)` call at lines 27-29. -/
structure ExecutionConfig where
  execution_mode : ExecutionMode
  deriving DecidableEq, Repr

/-- Embeds the `RenderConfig(load_method=...)` call at lines 30-32. -/
structure RenderConfig where
  load_method : LoadMode
  deriving DecidableEq, Repr

/-- Embeds the `DbtTaskGroup(...)` constructor call at lines 17-33: the
task-group node carries its identifier and the four nested configuration
objects, each a verbatim passthrough of the declared value. -/
structure DbtTaskGroup where
  group_id : String
  project_config : ProjectConfig
  profile_config : ProfileConfig
  execution_config : ExecutionConfig
  render_config : RenderConfig
  deriving DecidableEq, Repr

/-- Embeds the `datetime(2026, 1, 1)` value at line 12. -/
structure Datetime where
  year : Nat
  month : Nat
  day : Nat
  deriving DecidableEq, Repr

/-- Embeds the workflow definition assembled by the `@dag` decorator
(lines 9-15): identifier, schedule, start date, catchup flag, the task-group
nodes declared in the body, and the inter-task dependency edges declared by
the body (the source declares none). -/
structure Dag where
  dag_id : String
  schedule : String
  start_date : Datetime
  catchup : Bool
  task_groups : List DbtTaskGroup
  dependencies : List (String × String)
  deriving DecidableEq, Repr

/-- Line 6 of the source. -/
def DBT_PROJECT_PATH : String := "/usr/local/airflow/dbt/data_pipeline"

/-- Line 7 of the source. -/
def DBT_PROFILES_PATH : String :=
  "/usr/local/airflow/dbt/data_pipeline/profiles.yml"

/-- The task group `dbt_tg` constructed in the body of `dbt_pipeline`
(lines 17-33), field for field. -/
def dbt_tg : DbtTaskGroup :=
  { group_id := "dbt_tg"
    project_config := { dbt_project_path := DBT_PROJECT_PATH }
    profile_config :=
      { profiles_yml_filepath := DBT_PROFILES_PATH
        profile_name := "data_pipeline"
        target_name := "dev" }
    execution_config := { execution_mode := ExecutionMode.LOCAL }
    render_config := { load_method := LoadMode.DBT_LS } }

/-- The body of the function `dbt_pipeline` (lines 15-33): the list of nodes
it declares and its return value.  The Python function body constructs one
task group and falls off the end, returning `None`. -/
def dbt_pipeline : List DbtTaskGroup × Unit := ([dbt_tg], ())

/-- The workflow definition produced by applying the `@dag` decorator
(lines 9-14) to `dbt_pipeline`: the keyword arguments of the decorator,
verbatim, plus the nodes and dependency edges declared by the body. -/
def dbt_pipeline_dag : Dag :=
  { dag_id := "dbt_snowflake_pipeline"
    schedule := "@daily"
    start_date := { year := 2026, month := 1, day := 1 }
    catchup := false
    task_groups := dbt_pipeline.1
    dependencies := [] }

/-- Modelled from the spec: the host orchestration runtime's definition
catalog, into which loaded workflow definitions are registered.  The runtime
itself is a third-party collaborator whose code is not under `src/`; the spec
describes the boundary as "one workflow definition registered into the host
orchestration runtime's definition catalog". -/
abbrev Catalog := List Dag

/-- Modelled from the spec: loading the definition module executes its
top-level statements; the only registration the module performs is the call
`dbt_pipeline()` at line 35, which registers the constructed workflow
definition with the host runtime's catalog. -/
def loadModule (c : Catalog) : Catalog := c ++ [dbt_pipeline_dag]

/-- The workflow definitions newly produced by one load of the module on top
of catalog `c`: the catalog entries beyond those present before the load. -/
def producedDags (c : Catalog) : List Dag := (loadModule c).drop c.length

/-- C2: loading the definition module adds exactly one workflow definition to
the host runtime's catalog, and among the registered definitions the count of
those whose identifier equals the declared name "dbt_snowflake_pipeline"
grows by exactly one: the one produced definition carries that identifier. -/
theorem load_registers_one_dag_with_declared_id (c : Catalog) :
    (loadModule c).length = c.length + 1 ∧
    ((loadModule c).countP (fun d => d.dag_id == "dbt_snowflake_pipeline")
      = c.countP (fun d => d.dag_id == "dbt_snowflake_pipeline") + 1) := by
  refine ⟨by simp [loadModule], ?_⟩
  simp [loadModule, List.countP_append, List.countP_cons, dbt_pipeline_dag]

/-- Witness for C2: instantiation at the empty catalog. -/
theorem load_registers_one_dag_with_declared_id_witness :
    (loadModule []).length = List.length ([] : Catalog) + 1 ∧
    ((loadModule []).countP (fun d => d.dag_id == "dbt_snowflake_pipeline")
      = List.countP (fun d => d.dag_id == "dbt_snowflake_pipeline")
          ([] : Catalog) + 1) :=
  load_registers_one_dag_with_declared_id []

/-- C3: the constructed workflow's schedule is the declared daily recurrence
"@daily", its start date is 2026-01-01, and its catchup flag is false. -/
theorem dag_schedule_start_catchup :
    dbt_pipeline_dag.schedule = "@daily" ∧
    dbt_pipeline_dag.start_date = { year := 2026, month := 1, day := 1 } ∧
    dbt_pipeline_dag.catchup = false :=
  ⟨rfl, rfl, rfl⟩

/-- C4: the four settings of the nested task-group configuration equal the
declared values verbatim: the project path constant, the profile path
constant, the local execution mode, and the DBT_LS load method. -/
theorem taskgroup_settings_verbatim :
    dbt_tg.project_config.dbt_project_path
      = "/usr/local/airflow/dbt/data_pipeline" ∧
    dbt_tg.profile_config.profiles_yml_filepath
      = "/usr/local/airflow/dbt/data_pipeline/profiles.yml" ∧
    dbt_tg.execution_config.execution_mode = ExecutionMode.LOCAL ∧
    dbt_tg.render_config.load_method = LoadMode.DBT_LS :=
  ⟨rfl, rfl, rfl, rfl⟩

/-- C5: re-loading the definition is idempotent: the workflow definitions
produced by any two loads of the module, whatever the catalog state each load
starts from, are structurally identical. -/
theorem reload_produces_identical_dags (c c' : Catalog) :
    producedDags c = producedDags c' := by
  simp [producedDags, loadModule, List.drop_left]

/-- Witness for C5: instantiation at two concrete distinct catalogs. -/
theorem reload_produces_identical_dags_witness :
    producedDags [] = producedDags [dbt_pipeline_dag] :=
  reload_produces_identical_dags [] [dbt_pipeline_dag]

/-- C8: one load of the definition file constructs exactly one workflow
entity — the fixed definition `dbt_pipeline_dag` — and leaves every
previously registered catalog entry unchanged; the artifact defines no
operation that alters the constructed workflow, whose value is the same
closed term after every load. -/
theorem load_constructs_once_and_mutates_nothing (c : Catalog) :
    (loadModule c).take c.length = c ∧
    (loadModule c).drop c.length = [dbt_pipeline_dag] := by
  constructor
  · exact List.take_left c [dbt_pipeline_dag]
  · exact List.drop_left c [dbt_pipeline_dag]

/-- Witness for C8: instantiation at a concrete one-entry catalog. -/
theorem load_constructs_once_and_mutates_nothing_witness :
    (loadModule [dbt_pipeline_dag]).take 1 = [dbt_pipeline_dag] ∧
    (loadModule [dbt_pipeline_dag]).drop 1 = [dbt_pipeline_dag] := by
  have h := load_constructs_once_and_mutates_nothing [dbt_pipeline_dag]
  simpa using h

/-- C9: the workflow body declares exactly one node, a task group whose
identifier is "dbt_tg"; it declares no inter-task dependency edges; and the
workflow-definition function returns nothing. -/
theorem body_declares_single_taskgroup :
    dbt_pipeline_dag.task_groups = [dbt_tg] ∧
    dbt_pipeline_dag.task_groups.length = 1 ∧
    dbt_tg.group_id = "dbt_tg" ∧
    dbt_pipeline_dag.dependencies = [] ∧
    dbt_pipeline.2 = () :=
  ⟨rfl, rfl, rfl, rfl, rfl⟩

/-- C10: the configured profile path equals the configured project path with
the suffix "/profiles.yml" appended, and the selected profile entry is
"data_pipeline" with target "dev". -/
theorem profile_path_inside_project :
    dbt_tg.profile_config.profiles_yml_filepath
      = dbt_tg.project_config.dbt_project_path ++ "/profiles.yml" ∧
    dbt_tg.profile_config.profile_name = "data_pipeline" ∧
    dbt_tg.profile_config.target_name = "dev" := by
  refine ⟨?_, rfl, rfl⟩
  decide
